import Mathlib

/-!
Verification of the First Mile Monitor reconciliation pipeline (`fmlm.py`).

The pipeline joins courier scan events to order records, normalizes fields,
derives a categorical pick status per record, applies multi-select filters and
renders a report.  We embed the relevant parts of the script shallowly:

* pandas cell values become `PyVal` (null/NaN, integer, string), so that the
  script's in-place column overwrites (e.g. the raw numeric `tariff` being
  replaced by its label) are visible in the model;
* the row-wise `DataFrame.apply` transforms (`refactor_lo_code`,
  `normalize_coordinates`, `normalize_tariffs`, `set_barcode_image`,
  `set_status`, lines 34-69 of the source) become functions `Row → Row`,
  with `normalize_coordinates` returning `Option Row` since Python's
  `float` builtin raises on unparseable input and nothing catches it;
* `pandas.merge(scan_frame, proxy_frame, how="left", ...)` (line 148)
  becomes an explicit left outer join on lists;
* the sequential `if couriers: ... if clients: ...` filter block
  (lines 173-183) becomes `apply_filters`;
* the metrics and the visible projection (lines 167-171 and 185-187)
  become `render_report`.
-/

/-- A pandas cell value: null/NaN, an integer-like number, or a string.
`none_` plays the role of both SQL NULL and pandas NaN (which
`pandas.isna` identifies). -/
inductive PyVal where
  | none_ : PyVal
  | int : Int → PyVal
  | str : String → PyVal
deriving DecidableEq, Repr

/-- The `pandas.isna` test on a cell value. -/
def PyVal.isna : PyVal → Bool
  | .none_ => true
  | _ => false

/-- Python's `str` builtin on a cell value (only applied to non-null cells
in the source). -/
def pyStr : PyVal → String
  | .none_ => "None"
  | .int n => toString n
  | .str s => s

/-- Accumulating decimal-digit parser over the characters of a string; the
accumulator is `none` until at least one digit has been read, and any
non-digit character makes the whole parse fail. -/
def parseDigits : List Char → Option Nat → Option Nat
  | [], acc => acc
  | c :: cs, acc =>
      let d := c.toNat
      if 48 ≤ d && d ≤ 57 then
        parseDigits cs (some ((acc.getD 0) * 10 + (d - 48)))
      else
        none

/-- Numeric string parsing, standing in for Python's conversion of a
string to a number: an optional sign followed by at least one digit
parses, anything else raises (modelled by `none`). -/
def pyParseNum (s : String) : Option Int :=
  match s.data with
  | '-' :: rest => (parseDigits rest none).map (fun n => -(n : Int))
  | l => (parseDigits l none).map (fun n => (n : Int))

/-- Python's `float` builtin, as used on `lat`/`lon` cells: numbers coerce,
NaN stays NaN, and a string either parses as a number or raises (modelled
by `none`).  Nothing in the source catches the exception. -/
def pyFloat : PyVal → Option PyVal
  | .none_ => some .none_
  | .int n => some (.int n)
  | .str s => (pyParseNum s).map .int

/-- A scan event row as produced by `get_scan_frame` (source lines 87-99):
one row per physical scan, nested JSON payload fields flattened. -/
structure ScanEvent where
  scan_dttm : PyVal
  corp_client_id : PyVal
  courier_uuid : PyVal
  scanned_barcode_value : PyVal
  store_name : PyVal
  lat : PyVal
  lon : PyVal
deriving DecidableEq, Repr

/-- An order row of `proxy_frame` (source lines 124-126). -/
structure Order where
  barcode : PyVal
  external_id : PyVal
  lo_code : PyVal
  request_id : PyVal
  claim_id : PyVal
  tariff : PyVal
  platform_status : PyVal
  cargo_status : PyVal
  created_at : PyVal
  proxy_client_id : PyVal
deriving DecidableEq, Repr

/-- A row of `merged_frame`: all scan columns followed by all order columns
(null when the scan matched no order), plus the two columns added by the
row transforms (`scannable_qr`, `pick_status`), null until set. -/
structure Row where
  scan_dttm : PyVal
  corp_client_id : PyVal
  courier_uuid : PyVal
  scanned_barcode_value : PyVal
  store_name : PyVal
  lat : PyVal
  lon : PyVal
  barcode : PyVal
  external_id : PyVal
  lo_code : PyVal
  request_id : PyVal
  claim_id : PyVal
  tariff : PyVal
  platform_status : PyVal
  cargo_status : PyVal
  created_at : PyVal
  proxy_client_id : PyVal
  scannable_qr : PyVal := .none_
  pick_status : PyVal := .none_
deriving DecidableEq, Repr

/-- Source `refactor_lo_code` (lines 34-37): when `lo_code` is not null,
overwrite it with `"LO-" + str(lo_code)`. -/
def refactor_lo_code (row : Row) : Row :=
  if !row.lo_code.isna then
    { row with lo_code := .str ("LO-" ++ pyStr row.lo_code) }
  else
    row

/-- Source `normalize_coordinates` (lines 40-43): coerce `lat` and `lon`
with `float`; an unparseable value raises (no handler), modelled as
`none`. -/
def normalize_coordinates (row : Row) : Option Row := do
  let la ← pyFloat row.lat
  let lo ← pyFloat row.lon
  pure { row with lat := la, lon := lo }

/-- Source `normalize_tariffs` (lines 46-53): overwrite the `tariff` column
in place with its label: null becomes `"Unknown"`, `0` becomes `"SDD"`,
anything else becomes `"NDD"`. -/
def normalize_tariffs (row : Row) : Row :=
  if row.tariff.isna then
    { row with tariff := .str "Unknown" }
  else if row.tariff = .int 0 then
    { row with tariff := .str "SDD" }
  else
    { row with tariff := .str "NDD" }

/-- Source `set_barcode_image` (lines 56-59): build the QR proof URL from
the scanned barcode value. -/
def set_barcode_image (row : Row) : Row :=
  { row with scannable_qr :=
      PyVal.str ("http://qrcoder.ru/code/?" ++ pyStr row.scanned_barcode_value ++ "&4&0") }

/-- Source `set_status` (lines 62-69): first match wins -- no order-side
`barcode` means the scan is unmatched (`"Missing"`); a matched order with a
null `claim_id` is `"Picked"`; otherwise `"Received"`. -/
def set_status (row : Row) : Row :=
  if row.barcode.isna then
    { row with pick_status := .str "Missing" }
  else if row.claim_id.isna then
    { row with pick_status := .str "Picked" }
  else
    { row with pick_status := .str "Received" }

/-- The merged row for one scan and one (optional) matching order, as
`pandas.merge(..., how="left")` lays it out: scan columns, then order
columns, the latter all NaN when no order matched. -/
def merge_row (s : ScanEvent) (o : Option Order) : Row :=
  { scan_dttm := s.scan_dttm
    corp_client_id := s.corp_client_id
    courier_uuid := s.courier_uuid
    scanned_barcode_value := s.scanned_barcode_value
    store_name := s.store_name
    lat := s.lat
    lon := s.lon
    barcode := match o with | some o => o.barcode | none => .none_
    external_id := match o with | some o => o.external_id | none => .none_
    lo_code := match o with | some o => o.lo_code | none => .none_
    request_id := match o with | some o => o.request_id | none => .none_
    claim_id := match o with | some o => o.claim_id | none => .none_
    tariff := match o with | some o => o.tariff | none => .none_
    platform_status := match o with | some o => o.platform_status | none => .none_
    cargo_status := match o with | some o => o.cargo_status | none => .none_
    created_at := match o with | some o => o.created_at | none => .none_
    proxy_client_id := match o with | some o => o.proxy_client_id | none => .none_ }

/-- The rows `pandas.merge` produces for a single left (scan) row: one per
matching order, or a single all-null-right row when none matches. -/
def merge_one (orders : List Order) (s : ScanEvent) : List Row :=
  match orders.filter (fun o => o.barcode = s.scanned_barcode_value) with
  | [] => [merge_row s none]
  | ms => ms.map (fun o => merge_row s (some o))

/-- The frame `merged_frame` before the row transforms (source line 148): left outer
join of the scan frame to the order frame on
`scanned_barcode_value = barcode`. -/
def merged_frame (scans : List ScanEvent) (orders : List Order) : List Row :=
  scans.flatMap (merge_one orders)

/-- Pandas `DataFrame.apply` with a row function that can raise: the first raising
row aborts the whole application (pandas propagates the exception). -/
def apply_coords : List Row → Option (List Row)
  | [] => some []
  | r :: rs => do
      let r' ← normalize_coordinates r
      let rs' ← apply_coords rs
      pure (r' :: rs')

/-- The reconciliation chain of source lines 148-153: merge, then the five
row-wise transforms in script order.  The result is `none` when any row's
coordinate coercion raises, since nothing catches the exception. -/
def reconcile (scans : List ScanEvent) (orders : List Order) : Option (List Row) := do
  let m := merged_frame scans orders
  let m := m.map set_barcode_image
  let m ← apply_coords m
  let m := m.map normalize_tariffs
  let m := m.map refactor_lo_code
  let m := m.map set_status
  pure m

/-- Whether `pat` occurs at the very start of `s` (over character
lists). -/
def startsWithChars : List Char → List Char → Bool
  | _, [] => true
  | [], _ :: _ => false
  | c :: cs, p :: ps => c == p && startsWithChars cs ps

/-- Whether `pat` occurs anywhere in `s` (over character lists). -/
def containsChars : List Char → List Char → Bool
  | [], pat => pat.isEmpty
  | s@(_ :: cs), pat => startsWithChars s pat || containsChars cs pat

/-- Substring containment, for `Series.str.contains("_RETRY_")`
(the pattern has no regex metacharacters, so it is plain substring
search). -/
def strContains (s pat : String) : Bool := containsChars s.data pat.data

/-- Source line 127: drop every order whose `external_id` contains the
redelivery marker `"_RETRY_"` before the join. -/
def drop_redelivery (orders : List Order) : List Order :=
  orders.filter (fun o => !strContains (pyStr o.external_id) "_RETRY_")

/-- The full data path of the script: redelivery-marked orders are removed
from the order frame, then the reconciliation chain runs. -/
def pipeline (scans : List ScanEvent) (orders : List Order) : Option (List Row) :=
  reconcile scans (drop_redelivery orders)

/-- The four multi-select inclusion sets of the dashboard (source
lines 155-165). -/
structure Filters where
  couriers : List PyVal := []
  clients : List PyVal := []
  tariffs : List PyVal := []
  statuses : List PyVal := []
deriving DecidableEq, Repr

/-- The sequential filter block of source lines 173-183: each non-empty
multi-select list keeps only the rows whose column value is a member
(`Series.isin`); an empty list is falsy in Python, so it is skipped. -/
def apply_filters (f : Filters) (rows : List Row) : List Row :=
  let rows := if f.couriers.isEmpty then rows
              else rows.filter (fun r => f.couriers.contains r.courier_uuid)
  let rows := if f.clients.isEmpty then rows
              else rows.filter (fun r => f.clients.contains r.corp_client_id)
  let rows := if f.tariffs.isEmpty then rows
              else rows.filter (fun r => f.tariffs.contains r.tariff)
  let rows := if f.statuses.isEmpty then rows
              else rows.filter (fun r => f.statuses.contains r.pick_status)
  rows

/-- The visible column projection of source lines 185-187. -/
structure VisibleRow where
  scan_dttm : PyVal
  created_at : PyVal
  scanned_barcode_value : PyVal
  pick_status : PyVal
  tariff : PyVal
  corp_client_id : PyVal
  store_name : PyVal
  courier_uuid : PyVal
  external_id : PyVal
  lo_code : PyVal
  claim_id : PyVal
  scannable_qr : PyVal
deriving DecidableEq, Repr

/-- Project a reconciled row onto the visible columns. -/
def visible_projection (r : Row) : VisibleRow :=
  { scan_dttm := r.scan_dttm
    created_at := r.created_at
    scanned_barcode_value := r.scanned_barcode_value
    pick_status := r.pick_status
    tariff := r.tariff
    corp_client_id := r.corp_client_id
    store_name := r.store_name
    courier_uuid := r.courier_uuid
    external_id := r.external_id
    lo_code := r.lo_code
    claim_id := r.claim_id
    scannable_qr := r.scannable_qr }

/-- What the report shows (source lines 167-171 and 173-188), in script
order: the two metrics are computed on `merged_frame` as it stands at
lines 167-171 -- that is, BEFORE the filter block of lines 173-183 runs --
and the visible table is the projection of the filtered frame. -/
structure Report where
  scan_events : Nat
  scan_errors : Nat
  visible : List VisibleRow
deriving DecidableEq, Repr

/-- Render the report from the reconciled rows and the chosen filters,
following the script's statement order exactly. -/
def render_report (rows : List Row) (f : Filters) : Report :=
  let scan_events := rows.length
  let scan_errors := (rows.filter (fun r => r.pick_status = .str "Missing")).length
  let filtered := apply_filters f rows
  { scan_events := scan_events
    scan_errors := scan_errors
    visible := filtered.map visible_projection }

/-- The time filter the scan query ends up with. -/
inductive TimeFilter where
  | nofilter : TimeFilter
  | ge : Nat → TimeFilter
  | between : Nat → Nat → TimeFilter
deriving DecidableEq, Repr

/-- The window-interpretation logic of `get_scan_frame` (source
lines 75-86), with dates abstracted to `Nat`.  `date_limit` is the tuple
from the date picker: an empty tuple is falsy (`if date_limit:`), a
2-tuple unpacks into `(date_from, date_to)`, and any other length raises
in the unpacking and falls back to `(date_limit[0], None)`; a non-`None`
`date_to` selects the `BETWEEN` branch.  (Python `date` objects are always
truthy, so `if date_to:` only tests for `None`.) -/
def scan_window_filter (date_limit : List Nat) : TimeFilter :=
  match date_limit with
  | [] => .nofilter
  | [a, b] => .between a b
  | a :: _ => .ge a

/-- Whether a scan timestamp passes the query's `WHERE` clause (source
lines 82-86): SQL `BETWEEN` is inclusive at both ends, the start-only form
is `>=`, and an empty filter keeps everything. -/
def passes_time_filter : TimeFilter → Nat → Bool
  | .nofilter, _ => true
  | .ge a, t => a ≤ t
  | .between a b, t => a ≤ t && t ≤ b

/-- Written from the spec's status table, for comparison with
`set_status`: unmatched means `"Missing"`, matched without a claim means
`"Picked"`, matched with a claim means `"Received"`. -/
def spec_pick_status (matched claim_present : Bool) : PyVal :=
  if !matched then .str "Missing"
  else if !claim_present then .str "Picked"
  else .str "Received"

/-- Written from the spec's tariff table, for comparison with
`normalize_tariffs`: null maps to `"Unknown"`, zero to `"SDD"`, any other
non-null value to `"NDD"`. -/
def spec_tariff_label (raw : PyVal) : PyVal :=
  if raw = .none_ then .str "Unknown"
  else if raw = .int 0 then .str "SDD"
  else .str "NDD"

/-- Written from the spec's `lo_code_display` rule, for comparison with
`refactor_lo_code`: null passes through, anything else gets the `"LO-"`
text in front of its string form. -/
def spec_lo_code_display (raw : PyVal) : PyVal :=
  if raw = .none_ then .none_
  else .str ("LO-" ++ pyStr raw)

/-- Written from the spec's filter rule, for comparison with
`apply_filters`: a row passes iff, for every non-empty supplied set, its
corresponding column value is a member; empty sets impose no
constraint. -/
def spec_filter_pass (f : Filters) (r : Row) : Bool :=
  (f.couriers.isEmpty || f.couriers.contains r.courier_uuid) &&
  (f.clients.isEmpty || f.clients.contains r.corp_client_id) &&
  (f.tariffs.isEmpty || f.tariffs.contains r.tariff) &&
  (f.statuses.isEmpty || f.statuses.contains r.pick_status)

/-- Sample order matched by `s_pick`: tariff `0`, no claim yet. -/
def o_sdd : Order :=
  { barcode := .str "XYZ999", external_id := .str "EXT-1", lo_code := .int 42,
    request_id := .str "R1", claim_id := .none_, tariff := .int 0,
    platform_status := .str "created", cargo_status := .str "new",
    created_at := .int 100, proxy_client_id := .str "CLI-1" }

/-- Sample order matched by `s_rcv`: non-zero tariff, claim present. -/
def o_rcv : Order :=
  { barcode := .str "RCV777", external_id := .str "EXT-2", lo_code := .none_,
    request_id := .none_, claim_id := .str "CL-1", tariff := .int 5,
    platform_status := .str "done", cargo_status := .str "delivered",
    created_at := .int 200, proxy_client_id := .str "CLI-2" }

/-- Sample redelivery order: its `external_id` carries the `_RETRY_`
marker, and its barcode would otherwise match `s_miss`. -/
def o_retry : Order :=
  { barcode := .str "ABC123", external_id := .str "EXT_RETRY_3", lo_code := .int 7,
    request_id := .none_, claim_id := .none_, tariff := .int 9,
    platform_status := .str "created", cargo_status := .str "new",
    created_at := .int 300, proxy_client_id := .str "CLI-3" }

/-- Sample scan matching `o_sdd`. -/
def s_pick : ScanEvent :=
  { scan_dttm := .int 1, corp_client_id := .str "corp1", courier_uuid := .str "courA",
    scanned_barcode_value := .str "XYZ999", store_name := .str "store1",
    lat := .str "12", lon := .str "-70" }

/-- Sample scan matching no (kept) order. -/
def s_miss : ScanEvent :=
  { scan_dttm := .int 2, corp_client_id := .str "corp2", courier_uuid := .str "courB",
    scanned_barcode_value := .str "ABC123", store_name := .str "store2",
    lat := .int 33, lon := .int 7 }

/-- Sample scan matching `o_rcv`. -/
def s_rcv : ScanEvent :=
  { scan_dttm := .int 3, corp_client_id := .str "corp1", courier_uuid := .str "courA",
    scanned_barcode_value := .str "RCV777", store_name := .str "store3",
    lat := .str "5", lon := .str "6" }

/-- Sample scan whose latitude is a string `float` cannot parse. -/
def bad_scan : ScanEvent :=
  { scan_dttm := .int 9, corp_client_id := .none_, courier_uuid := .none_,
    scanned_barcode_value := .str "BAD111", store_name := .none_,
    lat := .str "not-a-number", lon := .str "0" }

/-- Sample scan frame. -/
def sample_scans : List ScanEvent := [s_pick, s_miss, s_rcv]

/-- Sample order frame (including the redelivery order). -/
def sample_orders : List Order := [o_sdd, o_rcv, o_retry]

/-- The reconciled row the pipeline produces for `s_pick`. -/
def row_pick : Row :=
  { scan_dttm := .int 1, corp_client_id := .str "corp1", courier_uuid := .str "courA",
    scanned_barcode_value := .str "XYZ999", store_name := .str "store1",
    lat := .int 12, lon := .int (-70), barcode := .str "XYZ999",
    external_id := .str "EXT-1", lo_code := .str "LO-42", request_id := .str "R1",
    claim_id := .none_, tariff := .str "SDD", platform_status := .str "created",
    cargo_status := .str "new", created_at := .int 100, proxy_client_id := .str "CLI-1",
    scannable_qr := .str "http://qrcoder.ru/code/?XYZ999&4&0",
    pick_status := .str "Picked" }

/-- The reconciled row the pipeline produces for `s_miss`. -/
def row_miss : Row :=
  { scan_dttm := .int 2, corp_client_id := .str "corp2", courier_uuid := .str "courB",
    scanned_barcode_value := .str "ABC123", store_name := .str "store2",
    lat := .int 33, lon := .int 7, barcode := .none_,
    external_id := .none_, lo_code := .none_, request_id := .none_,
    claim_id := .none_, tariff := .str "Unknown", platform_status := .none_,
    cargo_status := .none_, created_at := .none_, proxy_client_id := .none_,
    scannable_qr := .str "http://qrcoder.ru/code/?ABC123&4&0",
    pick_status := .str "Missing" }

/-- The reconciled row the pipeline produces for `s_rcv`. -/
def row_rcv : Row :=
  { scan_dttm := .int 3, corp_client_id := .str "corp1", courier_uuid := .str "courA",
    scanned_barcode_value := .str "RCV777", store_name := .str "store3",
    lat := .int 5, lon := .int 6, barcode := .str "RCV777",
    external_id := .str "EXT-2", lo_code := .none_, request_id := .none_,
    claim_id := .str "CL-1", tariff := .str "NDD", platform_status := .str "done",
    cargo_status := .str "delivered", created_at := .int 200, proxy_client_id := .str "CLI-2",
    scannable_qr := .str "http://qrcoder.ru/code/?RCV777&4&0",
    pick_status := .str "Received" }

/-- The full pipeline output on the sample frames. -/
def sample_out : List Row := [row_pick, row_miss, row_rcv]

/-- A status multi-select keeping only `"Picked"` rows. -/
def fs_picked : Filters := { statuses := [.str "Picked"] }

/-- A courier multi-select keeping only courier `"courB"`. -/
def fs_courB : Filters := { couriers := [.str "courB"] }

/-- The transform `set_status` only writes `pick_status`, with the value the spec's
status table prescribes for the joined `barcode`/`claim_id` pair. -/
theorem set_status_eq (r : Row) :
    set_status r = { r with pick_status := spec_pick_status (!r.barcode.isna) (!r.claim_id.isna) } := by
  cases hb : r.barcode <;> cases hc : r.claim_id <;>
    simp [set_status, spec_pick_status, PyVal.isna, hb, hc]

/-- The transform `normalize_tariffs` only writes `tariff`, with the value the spec's
tariff table prescribes for the raw tariff. -/
theorem normalize_tariffs_eq (r : Row) :
    normalize_tariffs r = { r with tariff := spec_tariff_label r.tariff } := by
  cases ht : r.tariff with
  | none_ => simp [normalize_tariffs, spec_tariff_label, PyVal.isna, ht]
  | int n =>
      by_cases hn : n = 0 <;>
        simp [normalize_tariffs, spec_tariff_label, PyVal.isna, ht, hn]
  | str s => simp [normalize_tariffs, spec_tariff_label, PyVal.isna, ht]

/-- The transform `refactor_lo_code` only writes `lo_code`, with the value the spec's
`lo_code_display` rule prescribes. -/
theorem refactor_lo_code_eq (r : Row) :
    refactor_lo_code r = { r with lo_code := spec_lo_code_display r.lo_code } := by
  cases r with
  | mk f1 f2 f3 f4 f5 f6 f7 f8 f9 lo f11 f12 f13 f14 f15 f16 f17 f18 f19 =>
      cases lo <;> simp [refactor_lo_code, spec_lo_code_display, PyVal.isna]

/-- The transform `normalize_coordinates` succeeds exactly when both coordinates
coerce, and then only rewrites `lat` and `lon`. -/
theorem normalize_coordinates_some_iff (r r' : Row) :
    normalize_coordinates r = some r' ↔
      ∃ la lo, pyFloat r.lat = some la ∧ pyFloat r.lon = some lo ∧
        r' = { r with lat := la, lon := lo } := by
  cases hla : pyFloat r.lat <;> cases hlo : pyFloat r.lon <;>
    simp [normalize_coordinates, hla, hlo, eq_comm]

/-- The transform `normalize_coordinates` raises exactly when one coordinate fails to
coerce. -/
theorem normalize_coordinates_none_iff (r : Row) :
    normalize_coordinates r = none ↔ pyFloat r.lat = none ∨ pyFloat r.lon = none := by
  cases hla : pyFloat r.lat <;> cases hlo : pyFloat r.lon <;>
    simp [normalize_coordinates, hla, hlo]

/-- Every row of a successful coordinate pass comes from an input row
whose coordinates coerced. -/
theorem apply_coords_some_mem {l l' : List Row} (h : apply_coords l = some l') :
    ∀ r' ∈ l', ∃ r ∈ l, normalize_coordinates r = some r' := by
  induction l generalizing l' with
  | nil =>
      simp [apply_coords] at h
      subst h
      simp
  | cons r rs ih =>
      cases hn : normalize_coordinates r with
      | none => simp [apply_coords, hn] at h
      | some r0 =>
          cases ha : apply_coords rs with
          | none => simp [apply_coords, hn, ha] at h
          | some l0 =>
              simp [apply_coords, hn, ha] at h
              subst h
              intro x hx
              rcases List.mem_cons.mp hx with rfl | hx
              · exact ⟨r, by simp, hn⟩
              · rcases ih ha x hx with ⟨y, hy, hyx⟩
                exact ⟨y, by simp [hy], hyx⟩

/-- One raising row aborts the whole coordinate pass. -/
theorem apply_coords_none_of_mem {l : List Row} {r : Row} (hr : r ∈ l)
    (h : normalize_coordinates r = none) : apply_coords l = none := by
  induction l with
  | nil => cases hr
  | cons a rs ih =>
      rcases List.mem_cons.mp hr with rfl | hr
      · simp [apply_coords, h]
      · cases hn : normalize_coordinates a <;>
          simp [apply_coords, hn, ih hr]

/-- The chain `reconcile` written as one `Option.map` over the coordinate pass. -/
theorem reconcile_eq (scans : List ScanEvent) (orders : List Order) :
    reconcile scans orders =
      (apply_coords ((merged_frame scans orders).map set_barcode_image)).map
        (fun l => ((l.map normalize_tariffs).map refactor_lo_code).map set_status) := by
  unfold reconcile
  cases h : apply_coords ((merged_frame scans orders).map set_barcode_image) <;> simp [h]

/-- Every reconciled row is the image, under the four pure transforms, of
a merged row whose coordinates coerced. -/
theorem mem_reconcile {scans : List ScanEvent} {orders : List Order} {out : List Row}
    (h : reconcile scans orders = some out) {r : Row} (hr : r ∈ out) :
    ∃ m ∈ merged_frame scans orders, ∃ m2,
      normalize_coordinates (set_barcode_image m) = some m2 ∧
      r = set_status (refactor_lo_code (normalize_tariffs m2)) := by
  rw [reconcile_eq] at h
  cases ha : apply_coords ((merged_frame scans orders).map set_barcode_image) with
  | none => rw [ha] at h; cases h
  | some l =>
      rw [ha] at h
      simp only [Option.map_some'] at h
      injection h with h
      subst h
      simp only [List.mem_map] at hr
      rcases hr with ⟨x2, ⟨x1, ⟨x0, hx0, rfl⟩, rfl⟩, rfl⟩
      rcases apply_coords_some_mem ha x0 hx0 with ⟨m', hm', hnc⟩
      rcases List.mem_map.mp hm' with ⟨m, hm, rfl⟩
      exact ⟨m, hm, x0, hnc, rfl⟩

/-- A left row always produces at least one merged row. -/
theorem merge_one_ne_nil (orders : List Order) (s : ScanEvent) : merge_one orders s ≠ [] := by
  unfold merge_one
  cases h : orders.filter (fun o => o.barcode = s.scanned_barcode_value) <;> simp

/-- Fan-out cardinality of the left join for one scan: one row when no
order matches, one per matching order otherwise. -/
theorem merge_one_length (orders : List Order) (s : ScanEvent) :
    (merge_one orders s).length =
      max 1 (orders.filter (fun o => o.barcode = s.scanned_barcode_value)).length := by
  unfold merge_one
  cases h : orders.filter (fun o => o.barcode = s.scanned_barcode_value) with
  | nil => simp
  | cons a l => simp

/-- The join processes the scan list row by row. -/
theorem merged_frame_cons (s : ScanEvent) (ss : List ScanEvent) (orders : List Order) :
    merged_frame (s :: ss) orders = merge_one orders s ++ merged_frame ss orders := by
  simp [merged_frame]

/-- The left join never drops a scan: at least one output row per scan. -/
theorem merged_frame_length (scans : List ScanEvent) (orders : List Order) :
    scans.length ≤ (merged_frame scans orders).length := by
  induction scans with
  | nil => simp [merged_frame]
  | cons s ss ih =>
      rw [merged_frame_cons, List.length_append]
      have h1 : 1 ≤ (merge_one orders s).length :=
        List.length_pos.mpr (merge_one_ne_nil orders s)
      simp only [List.length_cons]
      omega

/-- Every merged row comes from some scan of the left frame. -/
theorem mem_merged_frame {scans : List ScanEvent} {orders : List Order} {m : Row}
    (hm : m ∈ merged_frame scans orders) : ∃ s ∈ scans, m ∈ merge_one orders s := by
  simpa [merged_frame] using List.mem_flatMap.mp hm

/-- A merged row for a scan is either the all-null-right row (when no
order matched) or carries exactly one matching order. -/
theorem mem_merge_one {orders : List Order} {s : ScanEvent} {m : Row}
    (hm : m ∈ merge_one orders s) :
    (orders.filter (fun o => o.barcode = s.scanned_barcode_value) = [] ∧ m = merge_row s none) ∨
    (∃ o ∈ orders, o.barcode = s.scanned_barcode_value ∧ m = merge_row s (some o)) := by
  unfold merge_one at hm
  cases h : orders.filter (fun o => o.barcode = s.scanned_barcode_value) with
  | nil =>
      rw [h] at hm
      simp at hm
      exact Or.inl ⟨rfl, hm⟩
  | cons a l =>
      rw [h] at hm
      rcases List.mem_map.mp hm with ⟨o, ho, rfl⟩
      have ho' : o ∈ orders.filter (fun o => o.barcode = s.scanned_barcode_value) := h ▸ ho
      have := List.mem_filter.mp ho'
      exact Or.inr ⟨o, this.1, by simpa using this.2, rfl⟩

/-- The sequential filter block equals one filter by the spec's
conjunction-of-memberships predicate. -/
theorem apply_filters_eq (f : Filters) (rows : List Row) :
    apply_filters f rows = rows.filter (spec_filter_pass f) := by
  unfold apply_filters spec_filter_pass
  cases hc : f.couriers.isEmpty <;> cases hl : f.clients.isEmpty <;>
    cases ht : f.tariffs.isEmpty <;> cases hs : f.statuses.isEmpty <;>
      simp [hc, hl, ht, hs, List.filter_filter, Bool.and_comm, Bool.and_left_comm,
        Bool.and_assoc]

/-- The spec's tariff labels are the only values `spec_tariff_label`
produces. -/
theorem spec_tariff_label_total (v : PyVal) :
    spec_tariff_label v = .str "Unknown" ∨ spec_tariff_label v = .str "SDD" ∨
      spec_tariff_label v = .str "NDD" := by
  unfold spec_tariff_label
  split_ifs <;> simp

/-- A tariff label is never a numeric cell. -/
theorem spec_tariff_label_ne_int (v : PyVal) (n : Int) : spec_tariff_label v ≠ .int n := by
  unfold spec_tariff_label
  split_ifs <;> simp

/-- The `tariff` cell of every reconciled row is the spec label of the
raw tariff its merged row carried. -/
theorem tariff_of_mem_reconcile {scans : List ScanEvent} {orders : List Order} {out : List Row}
    (h : reconcile scans orders = some out) {r : Row} (hr : r ∈ out) :
    ∃ m ∈ merged_frame scans orders, r.tariff = spec_tariff_label m.tariff := by
  rcases mem_reconcile h hr with ⟨m, hm, m2, hnc, rfl⟩
  rcases (normalize_coordinates_some_iff _ _).mp hnc with ⟨la, lo, _, _, rfl⟩
  refine ⟨m, hm, ?_⟩
  rw [set_status_eq, refactor_lo_code_eq, normalize_tariffs_eq]
  rfl

/-- Rows produced for a member scan belong to the joined frame. -/
theorem mem_merged_frame_of {scans : List ScanEvent} {orders : List Order} {m : Row}
    {s : ScanEvent} (hs : s ∈ scans) (hm : m ∈ merge_one orders s) :
    m ∈ merged_frame scans orders :=
  List.mem_flatMap.mpr ⟨s, hs, hm⟩

/-- Every scan yields at least one merged row, and that row keeps the
scan's raw coordinates. -/
theorem exists_mem_merge_one (orders : List Order) (s : ScanEvent) :
    ∃ m ∈ merge_one orders s, m.lat = s.lat ∧ m.lon = s.lon := by
  unfold merge_one
  cases h : orders.filter (fun o => o.barcode = s.scanned_barcode_value) with
  | nil => exact ⟨merge_row s none, by simp, rfl, rfl⟩
  | cons a l => exact ⟨merge_row s (some a), by simp, rfl, rfl⟩

/-- Filtering only ever removes rows. -/
theorem mem_of_mem_apply_filters {f : Filters} {rows : List Row} {r : Row}
    (hr : r ∈ apply_filters f rows) : r ∈ rows := by
  rw [apply_filters_eq] at hr
  exact (List.mem_filter.mp hr).1

/-- Claim C1: for every reconciled record, `pick_status` is exactly one of
`"Missing"`, `"Picked"`, `"Received"`, and it equals the spec's
priority-ordered derivation applied to the record's joined order-side
`barcode` and `claim_id` alone -- no other field influences it (the three
strings are pairwise distinct, so exactly one disjunct holds). -/
theorem pick_status_derivation (scans : List ScanEvent) (orders : List Order) (out : List Row)
    (h : reconcile scans orders = some out) (r : Row) (hr : r ∈ out) :
    (r.pick_status = .str "Missing" ∨ r.pick_status = .str "Picked" ∨
      r.pick_status = .str "Received") ∧
    r.pick_status = spec_pick_status (!r.barcode.isna) (!r.claim_id.isna) := by
  rcases mem_reconcile h hr with ⟨m, hm, m2, hnc, rfl⟩
  rw [set_status_eq]
  refine ⟨?_, rfl⟩
  cases hb : (refactor_lo_code (normalize_tariffs m2)).barcode.isna <;>
    cases hc : (refactor_lo_code (normalize_tariffs m2)).claim_id.isna <;>
      simp [spec_pick_status, hb, hc]

/-- Witness for C1: on the sample frames, the row of the unmatched scan
satisfies the derivation. -/
theorem pick_status_derivation_witness :
    reconcile sample_scans (drop_redelivery sample_orders) = some sample_out ∧
    row_miss ∈ sample_out ∧
    ((row_miss.pick_status = .str "Missing" ∨ row_miss.pick_status = .str "Picked" ∨
      row_miss.pick_status = .str "Received") ∧
     row_miss.pick_status = spec_pick_status (!row_miss.barcode.isna) (!row_miss.claim_id.isna)) :=
  ⟨by decide, by decide,
   pick_status_derivation sample_scans (drop_redelivery sample_orders) sample_out
     (by decide) row_miss (by decide)⟩

/-- Claim C2: for every reconciled record the derived tariff label is one
of `"Unknown"`, `"SDD"`, `"NDD"` (pairwise distinct, so exactly one); it
is the spec's mapping of the raw tariff the merged row carried, and
`normalize_tariffs` computes that mapping from the raw tariff cell
alone. -/
theorem tariff_label_derivation (scans : List ScanEvent) (orders : List Order) (out : List Row)
    (h : reconcile scans orders = some out) (r : Row) (hr : r ∈ out) :
    (r.tariff = .str "Unknown" ∨ r.tariff = .str "SDD" ∨ r.tariff = .str "NDD") ∧
    (∃ m ∈ merged_frame scans orders, r.tariff = spec_tariff_label m.tariff) ∧
    (∀ row : Row, (normalize_tariffs row).tariff = spec_tariff_label row.tariff) := by
  rcases tariff_of_mem_reconcile h hr with ⟨m, hm, heq⟩
  refine ⟨heq ▸ spec_tariff_label_total m.tariff, ⟨m, hm, heq⟩, ?_⟩
  intro row
  rw [normalize_tariffs_eq]

/-- Witness for C2: on the sample frames, the `"NDD"` row satisfies the
derivation, and `normalize_tariffs` maps the unmatched row's null tariff
to its spec label. -/
theorem tariff_label_derivation_witness :
    reconcile sample_scans (drop_redelivery sample_orders) = some sample_out ∧
    row_rcv ∈ sample_out ∧
    (row_rcv.tariff = .str "Unknown" ∨ row_rcv.tariff = .str "SDD" ∨ row_rcv.tariff = .str "NDD") ∧
    (normalize_tariffs row_miss).tariff = spec_tariff_label row_miss.tariff :=
  ⟨by decide, by decide,
   (tariff_label_derivation sample_scans (drop_redelivery sample_orders) sample_out
     (by decide) row_rcv (by decide)).1,
   (tariff_label_derivation sample_scans (drop_redelivery sample_orders) sample_out
     (by decide) row_rcv (by decide)).2.2 row_miss⟩

/-- Claim C3: the left outer join produces at least one record per scan
(at least `|S|` in total), every joined record's scan-derived columns are
the originating scan's columns unchanged, per-scan fan-out is one record
per matching order (one record when none matches), and the single record
of an unmatched scan carries null in every order-side column. -/
theorem left_join_shape (scans : List ScanEvent) (orders : List Order) :
    scans.length ≤ (merged_frame scans orders).length ∧
    (∀ r ∈ merged_frame scans orders, ∃ s ∈ scans,
      r.scan_dttm = s.scan_dttm ∧ r.corp_client_id = s.corp_client_id ∧
      r.courier_uuid = s.courier_uuid ∧ r.scanned_barcode_value = s.scanned_barcode_value ∧
      r.store_name = s.store_name ∧ r.lat = s.lat ∧ r.lon = s.lon) ∧
    (∀ s : ScanEvent, (merge_one orders s).length =
      max 1 (orders.filter (fun o => o.barcode = s.scanned_barcode_value)).length) ∧
    (∀ s : ScanEvent, orders.filter (fun o => o.barcode = s.scanned_barcode_value) = [] →
      merge_one orders s = [merge_row s none] ∧
      (merge_row s none).barcode = .none_ ∧ (merge_row s none).external_id = .none_ ∧
      (merge_row s none).lo_code = .none_ ∧ (merge_row s none).request_id = .none_ ∧
      (merge_row s none).claim_id = .none_ ∧ (merge_row s none).tariff = .none_ ∧
      (merge_row s none).platform_status = .none_ ∧ (merge_row s none).cargo_status = .none_ ∧
      (merge_row s none).created_at = .none_ ∧ (merge_row s none).proxy_client_id = .none_) := by
  refine ⟨merged_frame_length scans orders, ?_, merge_one_length orders, ?_⟩
  · intro r hr
    rcases mem_merged_frame hr with ⟨s, hs, hms⟩
    rcases mem_merge_one hms with ⟨_, rfl⟩ | ⟨o, _, _, rfl⟩ <;>
      exact ⟨s, hs, rfl, rfl, rfl, rfl, rfl, rfl, rfl⟩
  · intro s hnil
    refine ⟨?_, rfl, rfl, rfl, rfl, rfl, rfl, rfl, rfl, rfl, rfl⟩
    unfold merge_one
    rw [hnil]

/-- Witness for C3: on the sample frames the join has at least three rows,
and the unmatched sample scan produces exactly the all-null-right row. -/
theorem left_join_shape_witness :
    sample_scans.length ≤ (merged_frame sample_scans (drop_redelivery sample_orders)).length ∧
    (drop_redelivery sample_orders).filter
      (fun o => o.barcode = s_miss.scanned_barcode_value) = [] ∧
    merge_one (drop_redelivery sample_orders) s_miss = [merge_row s_miss none] :=
  ⟨(left_join_shape sample_scans (drop_redelivery sample_orders)).1,
   by decide,
   ((left_join_shape sample_scans (drop_redelivery sample_orders)).2.2.2 s_miss (by decide)).1⟩

/-- Counterexample to C4 as stated: one unparseable latitude does NOT
leave the rest of the batch intact -- the whole pipeline yields nothing,
even though the same batch without the malformed scan reconciles fine. -/
theorem coordinate_failure_cex :
    pyFloat bad_scan.lat = none ∧
    pipeline [bad_scan, s_miss] sample_orders = none ∧
    pipeline [s_miss] sample_orders = some [row_miss] :=
  ⟨by decide, by decide, by decide⟩

/-- Claim C4 (amended): if any scan's `lat` or `lon` fails coercion, the
uncaught exception aborts the entire reconciliation -- no record is
emitted and no report is rendered. -/
theorem coordinate_failure_aborts (scans : List ScanEvent) (orders : List Order)
    (h : ∃ s ∈ scans, pyFloat s.lat = none ∨ pyFloat s.lon = none) :
    pipeline scans orders = none := by
  rcases h with ⟨s, hs, hbad⟩
  rcases exists_mem_merge_one (drop_redelivery orders) s with ⟨m, hm1, hlat, hlon⟩
  have hm : m ∈ merged_frame scans (drop_redelivery orders) := mem_merged_frame_of hs hm1
  have hfail : normalize_coordinates (set_barcode_image m) = none := by
    apply (normalize_coordinates_none_iff _).mpr
    rcases hbad with hb | hb
    · exact Or.inl (by rw [show (set_barcode_image m).lat = s.lat from hlat ▸ rfl]; exact hb)
    · exact Or.inr (by rw [show (set_barcode_image m).lon = s.lon from hlon ▸ rfl]; exact hb)
  unfold pipeline
  rw [reconcile_eq]
  rw [apply_coords_none_of_mem (List.mem_map_of_mem set_barcode_image hm) hfail]
  rfl

/-- Witness for the amended C4: the sample scan with the unparseable
latitude kills its whole run. -/
theorem coordinate_failure_aborts_witness :
    pyFloat bad_scan.lat = none ∧
    pipeline [bad_scan] sample_orders = none :=
  ⟨by decide,
   coordinate_failure_aborts [bad_scan] sample_orders
     ⟨bad_scan, by decide, Or.inl (by decide)⟩⟩

/-- Claim C5: a two-element window gives the inclusive `BETWEEN` filter, a
start-only window gives the `>=` filter, an empty window gives no filter,
and any other nonempty window (a malformed unpack) collapses to a
start-only filter on its first element instead of raising. -/
theorem scan_window_interpretation :
    (scan_window_filter [] = .nofilter ∧ ∀ t, passes_time_filter .nofilter t = true) ∧
    (∀ a b : Nat, scan_window_filter [a, b] = .between a b ∧
      ∀ t, (passes_time_filter (.between a b) t = true ↔ a ≤ t ∧ t ≤ b)) ∧
    (∀ a : Nat, scan_window_filter [a] = .ge a ∧
      ∀ t, (passes_time_filter (.ge a) t = true ↔ a ≤ t)) ∧
    (∀ (a : Nat) (rest : List Nat), rest.length ≠ 1 →
      scan_window_filter (a :: rest) = .ge a) := by
  refine ⟨⟨rfl, fun t => rfl⟩,
    fun a b => ⟨rfl, fun t => by simp [passes_time_filter]⟩,
    fun a => ⟨rfl, fun t => by simp [passes_time_filter]⟩,
    fun a rest hr => ?_⟩
  cases rest with
  | nil => rfl
  | cons b l =>
      cases l with
      | nil => exact absurd rfl hr
      | cons c l2 => rfl

/-- Witness for C5: a three-element window collapses to the start-only
filter on its first element. -/
theorem scan_window_interpretation_witness :
    ([(7 : Nat), 9].length ≠ 1) ∧ scan_window_filter [4, 7, 9] = .ge 4 :=
  ⟨by decide, scan_window_interpretation.2.2.2 4 [7, 9] (by decide)⟩

/-- Claim C6: applying two filter configurations in sequence equals one
filter by the conjunction of their pass predicates; a single
configuration filters by the spec's predicate; and that predicate holds
iff every non-empty multi-select contains the row's column value (empty
sets impose no constraint). -/
theorem filter_composition (f1 f2 : Filters) (rows : List Row) :
    (apply_filters f2 (apply_filters f1 rows) =
      rows.filter (fun r => spec_filter_pass f1 r && spec_filter_pass f2 r)) ∧
    (apply_filters f1 rows = rows.filter (fun r => spec_filter_pass f1 r)) ∧
    (∀ r : Row, spec_filter_pass f1 r = true ↔
      ((f1.couriers ≠ [] → r.courier_uuid ∈ f1.couriers) ∧
       (f1.clients ≠ [] → r.corp_client_id ∈ f1.clients) ∧
       (f1.tariffs ≠ [] → r.tariff ∈ f1.tariffs) ∧
       (f1.statuses ≠ [] → r.pick_status ∈ f1.statuses))) := by
  refine ⟨?_, apply_filters_eq f1 rows, ?_⟩
  · rw [apply_filters_eq, apply_filters_eq, List.filter_filter]
    exact List.filter_congr fun r _ => Bool.and_comm _ _
  · intro r
    simp only [spec_filter_pass, Bool.and_eq_true, Bool.or_eq_true, List.isEmpty_iff,
      List.contains, List.elem_iff, or_iff_not_imp_left, ne_eq]
    tauto

/-- Witness for C6: on the sample output, a status filter followed by a
courier filter equals the single conjunctive filter. -/
theorem filter_composition_witness :
    apply_filters fs_courB (apply_filters fs_picked sample_out) =
      sample_out.filter (fun r => spec_filter_pass fs_picked r && spec_filter_pass fs_courB r) :=
  (filter_composition fs_picked fs_courB sample_out).1

/-- Claim C7: every order surviving the pre-join `_RETRY_` filter is
marker-free, and no record of the pipeline output carries an
`external_id` containing the redelivery marker. -/
theorem redelivery_excluded (scans : List ScanEvent) (orders : List Order) (out : List Row)
    (h : pipeline scans orders = some out) :
    (∀ o ∈ drop_redelivery orders, strContains (pyStr o.external_id) "_RETRY_" = false) ∧
    (∀ r ∈ out, strContains (pyStr r.external_id) "_RETRY_" = false) := by
  have hkept : ∀ o ∈ drop_redelivery orders, strContains (pyStr o.external_id) "_RETRY_" = false := by
    intro o ho
    have := (List.mem_filter.mp ho).2
    simpa using this
  refine ⟨hkept, ?_⟩
  intro r hr
  unfold pipeline at h
  rcases mem_reconcile h hr with ⟨m, hm, m2, hnc, rfl⟩
  rcases (normalize_coordinates_some_iff _ _).mp hnc with ⟨la, lo, _, _, rfl⟩
  have hext : (set_status (refactor_lo_code (normalize_tariffs
      { set_barcode_image m with lat := la, lon := lo }))).external_id = m.external_id := by
    rw [set_status_eq, refactor_lo_code_eq, normalize_tariffs_eq]
    rfl
  rw [hext]
  rcases mem_merged_frame hm with ⟨s, _, hms⟩
  rcases mem_merge_one hms with ⟨_, rfl⟩ | ⟨o, ho, _, rfl⟩
  · show strContains (pyStr PyVal.none_) "_RETRY_" = false
    decide
  · exact hkept o ho

/-- Witness for C7: the sample pipeline output (whose order frame includes
a `_RETRY_` order that would match the second scan) has no marked
record. -/
theorem redelivery_excluded_witness :
    pipeline sample_scans sample_orders = some sample_out ∧
    strContains (pyStr row_miss.external_id) "_RETRY_" = false :=
  ⟨by decide,
   (redelivery_excluded sample_scans sample_orders sample_out (by decide)).2
     row_miss (by decide)⟩

/-- Claim C8: `refactor_lo_code` maps the `lo_code` cell exactly as the
spec's `lo_code_display` rule (null passthrough, otherwise the `"LO-"`
text followed by the string form); every reconciled record's `lo_code`
is that rule applied to its merged raw value; and `42` yields
`"LO-42"`. -/
theorem lo_code_display_rule :
    (∀ row : Row, (refactor_lo_code row).lo_code = spec_lo_code_display row.lo_code) ∧
    (∀ (scans : List ScanEvent) (orders : List Order) (out : List Row),
      reconcile scans orders = some out → ∀ r ∈ out,
        ∃ m ∈ merged_frame scans orders, r.lo_code = spec_lo_code_display m.lo_code) ∧
    spec_lo_code_display (.int 42) = .str "LO-42" ∧
    spec_lo_code_display .none_ = .none_ := by
  refine ⟨?_, ?_, by decide, rfl⟩
  · intro row
    rw [refactor_lo_code_eq]
  · intro scans orders out h r hr
    rcases mem_reconcile h hr with ⟨m, hm, m2, hnc, rfl⟩
    rcases (normalize_coordinates_some_iff _ _).mp hnc with ⟨la, lo, _, _, rfl⟩
    refine ⟨m, hm, ?_⟩
    rw [set_status_eq, refactor_lo_code_eq, normalize_tariffs_eq]
    rfl

/-- Witness for C8: the sample record whose order has `lo_code = 42`
carries the display value of its merged raw cell (which is
`"LO-42"`). -/
theorem lo_code_display_rule_witness :
    reconcile sample_scans (drop_redelivery sample_orders) = some sample_out ∧
    row_pick ∈ sample_out ∧
    row_pick.lo_code = .str "LO-42" ∧
    (∃ m ∈ merged_frame sample_scans (drop_redelivery sample_orders),
      row_pick.lo_code = spec_lo_code_display m.lo_code) :=
  ⟨by decide, by decide, by decide,
   lo_code_display_rule.2.1 sample_scans (drop_redelivery sample_orders) sample_out
     (by decide) row_pick (by decide)⟩

/-- Counterexample to C9 as stated: on the sample output with a
status-equals-Picked filter, the rendered metrics (3 scan events, 1
missing) do not equal the corresponding counts over the filtered
records (1 row, 0 missing) -- the metrics are computed before the
filters run. -/
theorem report_counts_cex :
    pipeline sample_scans sample_orders = some sample_out ∧
    (render_report sample_out fs_picked).scan_events = 3 ∧
    (render_report sample_out fs_picked).scan_errors = 1 ∧
    (apply_filters fs_picked sample_out).length = 1 ∧
    ((apply_filters fs_picked sample_out).filter
      (fun r => r.pick_status = .str "Missing")).length = 0 ∧
    (render_report sample_out fs_picked).scan_events ≠
      (apply_filters fs_picked sample_out).length ∧
    (render_report sample_out fs_picked).scan_errors ≠
      ((apply_filters fs_picked sample_out).filter
        (fun r => r.pick_status = .str "Missing")).length :=
  ⟨by decide, by decide, by decide, by decide, by decide, by decide, by decide⟩

/-- Claim C9 (amended): the report's two row counts are computed over the
UNFILTERED reconciled sequence -- they equal the unfiltered totals, are
unchanged by any choice of filters, and only the visible table reflects
the filters. -/
theorem report_counts_prefilter (rows : List Row) (f f2 : Filters) :
    (render_report rows f).scan_events = rows.length ∧
    (render_report rows f).scan_errors =
      (rows.filter (fun r => r.pick_status = .str "Missing")).length ∧
    (render_report rows f).scan_events = (render_report rows f2).scan_events ∧
    (render_report rows f).scan_errors = (render_report rows f2).scan_errors ∧
    (render_report rows f).visible = (apply_filters f rows).map visible_projection :=
  ⟨rfl, rfl, rfl, rfl, rfl⟩

/-- Claim C10: after normalization the `tariff` cell of every pipeline
record -- and of every filtered record and every visible row -- is one of
the three labels and never a numeric cell: the raw numeric tariff is not
retained anywhere in the output, so the tariff multi-select and the
export column operate on labels. -/
theorem tariff_label_only_in_output (scans : List ScanEvent) (orders : List Order)
    (out : List Row) (f : Filters) (h : pipeline scans orders = some out) :
    (∀ r ∈ out, (r.tariff = .str "Unknown" ∨ r.tariff = .str "SDD" ∨ r.tariff = .str "NDD") ∧
      ∀ n : Int, r.tariff ≠ .int n) ∧
    (∀ r ∈ apply_filters f out,
      (r.tariff = .str "Unknown" ∨ r.tariff = .str "SDD" ∨ r.tariff = .str "NDD") ∧
      ∀ n : Int, r.tariff ≠ .int n) ∧
    (∀ v ∈ (apply_filters f out).map visible_projection,
      (v.tariff = .str "Unknown" ∨ v.tariff = .str "SDD" ∨ v.tariff = .str "NDD") ∧
      ∀ n : Int, v.tariff ≠ .int n) := by
  unfold pipeline at h
  have hout : ∀ r ∈ out,
      (r.tariff = .str "Unknown" ∨ r.tariff = .str "SDD" ∨ r.tariff = .str "NDD") ∧
      ∀ n : Int, r.tariff ≠ .int n := by
    intro r hr
    rcases tariff_of_mem_reconcile h hr with ⟨m, _, heq⟩
    exact ⟨heq ▸ spec_tariff_label_total m.tariff,
      fun n => heq ▸ spec_tariff_label_ne_int m.tariff n⟩
  refine ⟨hout, fun r hr => hout r (mem_of_mem_apply_filters hr), ?_⟩
  intro v hv
  rcases List.mem_map.mp hv with ⟨r, hr, rfl⟩
  exact hout r (mem_of_mem_apply_filters hr)

/-- Witness for C10: the sample `"NDD"` record's `tariff` is a label and
not the raw numeric `5` its order carried. -/
theorem tariff_label_only_in_output_witness :
    pipeline sample_scans sample_orders = some sample_out ∧
    (row_rcv.tariff = .str "Unknown" ∨ row_rcv.tariff = .str "SDD" ∨
      row_rcv.tariff = .str "NDD") ∧
    row_rcv.tariff ≠ .int 5 :=
  ⟨by decide,
   ((tariff_label_only_in_output sample_scans sample_orders sample_out fs_picked
       (by decide)).1 row_rcv (by decide)).1,
   ((tariff_label_only_in_output sample_scans sample_orders sample_out fs_picked
       (by decide)).1 row_rcv (by decide)).2 5⟩
